import Mathlib

/-!
# Agent-supervision core: verification of the event bus, retry/backoff, run loop and supervisor

Shallow embedding of the agent-supervision core of the Tronas repository:

* `src/backend/app/services/agents/event_bus.py` — `EventBus` (publish, publish_sync,
  `_process_event` history update, `get_event_history`);
* `src/backend/app/services/agents/base_agent.py` — `RetryConfig`, `AgentState`,
  `BaseAgent._execute_with_retry`, the body of `BaseAgent._run_loop`;
* `src/backend/app/services/agents/orchestrator.py` — `AgentOrchestrator.start` rollback
  and `AgentOrchestrator._handle_agent_failure`.

Modelling conventions:
* Python float delays are modelled as exact rationals (`ℚ`); every concrete scenario below
  uses values (1, 2, 300, 0.5, 0.9, …) on which binary floating point is exact.
* `asyncio.Queue` semantics are part of the embedding: `put_nowait` raises `QueueFull`
  when the queue is at capacity, while `await put` *suspends* until a slot frees
  (it never raises `QueueFull`).
* `random.random()` draws are an explicit oracle `draw : Nat → ℚ`, with the library
  guarantee `0 ≤ draw k < 1`; attempt outcomes of a unit of work are an explicit
  oracle `outcome : Nat → Except Nat Bool` (`.error e` = the attempt raised exception
  `e`, `.ok b` = the attempt returned `b`).
* `uuid4` ids and timestamps are caller-supplied `Nat` parameters.
-/

namespace Tronas

/-! ## Event bus (`event_bus.py`) -/

/-- `EventType` from `event_bus.py` — the closed enumeration of event kinds. -/
inductive EventType where
  | requestCreated | requestUpdated | requestCompleted | requestCancelled
  | documentRetrievalStarted | documentRetrievalProgress | documentsRetrieved
  | documentRetrievalFailed
  | emailRetrievalStarted | emailRetrievalProgress | emailsRetrieved | emailRetrievalFailed
  | classificationStarted | classificationProgress | classificationComplete
  | classificationFailed
  | deadlineApproaching | deadlineCritical | deadlineOverdue
  | workflowTaskStarted | workflowTaskCompleted | workflowTaskFailed | workflowCompleted
  | agentStarted | agentStopped | agentError | agentHeartbeat
  | error | warning | notification | systemShutdown
  deriving DecidableEq, Repr

/-- `Event` dataclass from `event_bus.py`: the payload map is modelled as an
association list, the generated `event_id` and `timestamp` as `Nat`. -/
structure Event where
  eventType : EventType
  data : List (String × String)
  source : String
  eventId : Nat
  timestamp : Nat
  correlationId : Option String
  deriving DecidableEq, Repr

/-- The bounded `asyncio.Queue` held in `EventBus._event_queue`
(`maxsize = max_queue_size`, default 10,000). -/
structure EventQueue where
  maxsize : Nat
  items : List Event
  deriving DecidableEq, Repr

/-- `asyncio.Queue.full()`: a queue with `maxsize > 0` is full when it holds
`maxsize` items (with `maxsize = 0` the queue is unbounded). -/
def EventQueue.isFull (q : EventQueue) : Bool :=
  0 < q.maxsize && q.maxsize ≤ q.items.length

/-- Exceptions raised by the event-bus methods. -/
inductive PyError where
  | runtimeError (msg : String)
  deriving DecidableEq, Repr

/-- The message of the `RuntimeError` raised by `publish`/`publish_sync`. -/
def queueFullMsg : String := "Event queue is full"

/-- Outcome of the coroutine `EventBus.publish`. -/
inductive PublishOutcome where
  /-- `publish` returned the constructed event, with the queue updated. -/
  | returned (e : Event) (q : EventQueue)
  /-- `await self._event_queue.put(event)` found the queue full and suspended:
  `publish` is blocked until the dispatcher frees a slot. `asyncio.Queue.put`
  never raises `QueueFull`, so the `except asyncio.QueueFull` branch of
  `publish` (event_bus.py lines 197–199) is unreachable. -/
  | blockedOnPut (e : Event)
  deriving DecidableEq, Repr

/-- `EventBus.publish` (event_bus.py lines 165–201): constructs the `Event`, then
`await self._event_queue.put(event)`. The construction and enqueue never touch the
subscription table or invoke any callback — delivery happens later in
`_process_event`. -/
def publish (q : EventQueue) (eventType : EventType) (data : List (String × String))
    (source : String) (correlationId : Option String) (eventId timestamp : Nat) :
    PublishOutcome :=
  let event : Event :=
    { eventType := eventType, data := data, source := source,
      eventId := eventId, timestamp := timestamp, correlationId := correlationId }
  if q.isFull then
    PublishOutcome.blockedOnPut event
  else
    PublishOutcome.returned event { q with items := q.items ++ [event] }

/-- `EventBus.publish_sync` (event_bus.py lines 203–230): constructs the `Event`,
then `self._event_queue.put_nowait(event)`; a full queue raises `QueueFull`, turned
into `RuntimeError("Event queue is full")`. -/
def publishSync (q : EventQueue) (eventType : EventType) (data : List (String × String))
    (source : String) (correlationId : Option String) (eventId timestamp : Nat) :
    Except PyError (Event × EventQueue) :=
  let event : Event :=
    { eventType := eventType, data := data, source := source,
      eventId := eventId, timestamp := timestamp, correlationId := correlationId }
  if q.isFull then
    Except.error (PyError.runtimeError queueFullMsg)
  else
    Except.ok (event, { q with items := q.items ++ [event] })

/-- `EventBus._max_history_size` (event_bus.py line 114). -/
def maxHistorySize : Nat := 1000

/-- The history update performed by `_process_event` (event_bus.py lines 232–237):
append the event, then truncate to the last `_max_history_size` entries
(`self._event_history[-self._max_history_size:]`), evicting the oldest first. -/
def processEventHistory (hist : List Event) (e : Event) : List Event :=
  let h := hist ++ [e]
  if maxHistorySize < h.length then h.drop (h.length - maxHistorySize) else h

/-- Python slice `l[-limit:]` for an arbitrary integer `limit`:
for `limit > 0` the last `limit` elements; for `limit = 0` the start index `-0 = 0`
yields the whole list; for `limit < 0` the start index `-limit > 0` drops the first
`-limit` elements. -/
def pyTakeLast {α : Type} (l : List α) (limit : Int) : List α :=
  if 0 < limit then l.drop (l.length - limit.toNat)
  else if limit = 0 then l
  else l.drop (-limit).toNat

/-- The filtering steps of `get_event_history` (event_bus.py lines 354–361). A `source`
filter is applied only when the string is non-empty, mirroring Python's `if source:`
truthiness test; `EventType` members and non-`None` correlation ids are always truthy. -/
def filterEvents (hist : List Event) (eventType : Option EventType)
    (source : Option String) (correlationId : Option String) : List Event :=
  let events := hist
  let events := match eventType with
    | some et => events.filter (fun e => e.eventType == et)
    | none => events
  let events := match source with
    | some s => if s.isEmpty then events else events.filter (fun e => e.source == s)
    | none => events
  let events := match correlationId with
    | some c => if c.isEmpty then events else events.filter (fun e => e.correlationId == some c)
    | none => events
  events

/-- `EventBus.get_event_history` (event_bus.py lines 335–363): filter the history,
then return `events[-limit:]`. -/
def getEventHistory (hist : List Event) (eventType : Option EventType)
    (source : Option String) (correlationId : Option String) (limit : Int) : List Event :=
  pyTakeLast (filterEvents hist eventType source correlationId) limit

/-! ## Worker retry and run loop (`base_agent.py`) -/

/-- `AgentState` from `base_agent.py`. -/
inductive AgentState where
  | idle | starting | running | paused | stopping | stopped | error | recovering
  deriving DecidableEq, Repr

/-- `RetryConfig` from `base_agent.py` (delays as exact rationals). -/
structure RetryConfig where
  max_retries : Nat := 3
  initial_delay : ℚ := 1
  max_delay : ℚ := 300
  exponential_base : ℚ := 2
  jitter : Bool := true
  deriving DecidableEq, Repr

deriving instance DecidableEq for Except

/-- Trace of one call to `BaseAgent._execute_with_retry`:
how often `func` was awaited, the backoff delays slept (in order), the `_set_state`
calls made (in order), the final value of `_metrics.current_retry_count`, and the
result (`.ok b` when `func` returned `b`, `.error e` when the last exception `e`
was re-raised). -/
structure RetryTrace where
  attemptsMade : Nat
  delays : List ℚ
  stateCalls : List AgentState
  retryCount : Nat
  result : Except Nat Bool
  deriving DecidableEq, Repr

/-- The loop body of `_execute_with_retry` (base_agent.py lines 325–361), recursing
on the remaining iterations of `for attempt in range(max_retries + 1)`:
at the iteration for `attempt`, `remaining = max_retries - attempt` further
iterations follow, so `0 < remaining ↔ attempt < max_retries`.
`delay` is the mutable local of the source; `rc` is `_metrics.current_retry_count`.
On failure with attempts remaining: with jitter, `delay = delay * (0.5 + random.random())`;
sleep `min(delay, max_delay)`; then `delay *= exponential_base`. -/
def executeWithRetryAux (cfg : RetryConfig) (outcome : Nat → Except Nat Bool)
    (draw : Nat → ℚ) : Nat → Nat → ℚ → Nat → RetryTrace
  | _, 0, _, rc =>
    -- unreachable from `executeWithRetry`: the loop runs `max_retries + 1 ≥ 1` times
    { attemptsMade := 0, delays := [], stateCalls := [], retryCount := rc,
      result := Except.error 0 }
  | attempt, remaining + 1, delay, rc =>
    let pre := if 0 < attempt then [AgentState.recovering] else []
    match outcome attempt with
    | Except.ok r =>
      let post := if 0 < attempt then [AgentState.running] else []
      { attemptsMade := 1, delays := [], stateCalls := pre ++ post, retryCount := rc,
        result := Except.ok r }
    | Except.error e =>
      let rc' := attempt + 1
      if 0 < remaining then
        let delay' := if cfg.jitter then delay * (1/2 + draw attempt) else delay
        let wait := min delay' cfg.max_delay
        let rest := executeWithRetryAux cfg outcome draw (attempt + 1) remaining
          (delay' * cfg.exponential_base) rc'
        { attemptsMade := rest.attemptsMade + 1,
          delays := wait :: rest.delays,
          stateCalls := pre ++ rest.stateCalls,
          retryCount := rest.retryCount,
          result := rest.result }
      else
        { attemptsMade := 1, delays := [], stateCalls := pre ++ [AgentState.error],
          retryCount := rc', result := Except.error e }

/-- `BaseAgent._execute_with_retry` (base_agent.py lines 305–361): run the loop from
`attempt = 0` with `delay = initial_delay`, `rc` the incoming
`_metrics.current_retry_count`. -/
def executeWithRetry (cfg : RetryConfig) (outcome : Nat → Except Nat Bool)
    (draw : Nat → ℚ) (rc : Nat) : RetryTrace :=
  executeWithRetryAux cfg outcome draw 0 (cfg.max_retries + 1) cfg.initial_delay rc

/-- The counters of `AgentMetrics` (base_agent.py lines 42–54) touched by the run loop.
`errors` is the number of retained error records (`_add_error` appends then truncates
to the last 100, so only the length is modelled). -/
structure AgentMetrics where
  total_runs : Nat := 0
  successful_runs : Nat := 0
  failed_runs : Nat := 0
  current_retry_count : Nat := 0
  errors : Nat := 0
  deriving DecidableEq, Repr

/-- Effect of `_add_error` (base_agent.py lines 430–440) on the number of retained
error records: append one, keep at most 100 (oldest evicted). -/
def addError (errors : Nat) : Nat := min (errors + 1) 100

/-- Result of one pass of the run-loop body: the agent state after the pass (the last
`_set_state` call made during it, if any), the updated metrics, and how many
`AgentError` events were published (`_set_state(ERROR)` publishes one each time,
base_agent.py lines 127–131). -/
structure IterationResult where
  state : AgentState
  metrics : AgentMetrics
  agentErrorEvents : Nat
  deriving DecidableEq, Repr

/-- One non-shutdown, non-paused pass of the body of `BaseAgent._run_loop`
(base_agent.py lines 238–270): increment `total_runs`, call `_execute_with_retry(run)`;
a truthy result increments `successful_runs` and resets `current_retry_count`; a falsy
result increments `failed_runs`; a raised exception is caught in the loop, increments
`failed_runs`, and appends an error record. The loop then sleeps and repeats — it does
not exit, whatever the agent state. -/
def runLoopIteration (cfg : RetryConfig) (s : AgentState) (m : AgentMetrics)
    (outcome : Nat → Except Nat Bool) (draw : Nat → ℚ) : IterationResult :=
  let m1 : AgentMetrics := { m with total_runs := m.total_runs + 1 }
  let t := executeWithRetry cfg outcome draw m1.current_retry_count
  let s' := (t.stateCalls.getLast?).getD s
  let errEvents := t.stateCalls.count AgentState.error
  let m2 : AgentMetrics := { m1 with current_retry_count := t.retryCount }
  match t.result with
  | Except.ok true =>
    { state := s',
      metrics := { m2 with successful_runs := m2.successful_runs + 1,
                           current_retry_count := 0 },
      agentErrorEvents := errEvents }
  | Except.ok false =>
    { state := s',
      metrics := { m2 with failed_runs := m2.failed_runs + 1 },
      agentErrorEvents := errEvents }
  | Except.error _ =>
    { state := s',
      metrics := { m2 with failed_runs := m2.failed_runs + 1,
                           errors := addError m2.errors },
      agentErrorEvents := errEvents }

/-! ## Supervisor (`orchestrator.py`) -/

/-- Result of one `asyncio.create_task(agent.start())` as observed through
`asyncio.gather(..., return_exceptions=True)`: either the coroutine returned a
`bool`, or it raised (exceptions are modelled by a `Nat` code). -/
inductive StartOutcome where
  | ok (b : Bool)
  | exn (e : Nat)
  deriving DecidableEq, Repr

/-- Agent state after `agent.start()` resolves: the success path of
`BaseAgent.start` ends in `RUNNING`; a `False` return means the exception path
set `ERROR` (base_agent.py lines 164–168); a task that raised did so somewhere in
the `STARTING` sequence. -/
def agentStartState (r : StartOutcome) : AgentState :=
  match r with
  | StartOutcome.ok true => AgentState.running
  | StartOutcome.ok false => AgentState.error
  | StartOutcome.exn _ => AgentState.starting

/-- `BaseAgent.stop` (base_agent.py lines 170–222) as observed by the supervisor:
a `STOPPED` agent returns `True` immediately; otherwise the stop sequence runs to
`STOPPED` unless a shutdown hook raises (`hookFails`), in which case the agent is
left in `ERROR` and `stop` returns `False`. -/
def agentStopModel (hookFails : Bool) (s : AgentState) : Bool × AgentState :=
  if s = AgentState.stopped then (true, s)
  else if hookFails then (false, AgentState.error)
  else (true, AgentState.stopped)

/-- `AgentOrchestrator.start` (orchestrator.py lines 171–224): start every agent
concurrently, gather the results; if every task returned `True` the orchestrator
enters `RUNNING` and `start` returns `True`; otherwise it calls `self.stop()`, which
issues `agent.stop()` to *every* agent (orchestrator.py lines 252–261), and `start`
returns `False`. `stopHookFails` gives each agent's shutdown-hook behaviour during
the rollback. Returns (return value of `start`, final agent states). -/
def orchestratorStart (startResults : List StartOutcome) (stopHookFails : List Bool) :
    Bool × List AgentState :=
  let states := startResults.map agentStartState
  let allStarted := startResults.all (fun r => r == StartOutcome.ok true)
  if allStarted then (true, states)
  else (false, (states.zip stopHookFails).map (fun p => (agentStopModel p.2 p.1).2))

/-- What one call to `AgentOrchestrator._handle_agent_failure` did. -/
structure FailureAction where
  /-- the stop/cooldown/start restart sequence was performed -/
  restartAttempted : Bool
  /-- a system `ERROR` event was published (orchestrator.py lines 344–352) -/
  publishedSystemError : Bool
  /-- the agent's restart count after the call -/
  newCount : Nat
  deriving DecidableEq, Repr

/-- `AgentOrchestrator._handle_agent_failure` (orchestrator.py lines 326–371):
if `auto_restart_agents` is disabled, only log and return; if the restart count has
reached `max_restart_attempts`, publish a system `ERROR` event and return; otherwise
stop the agent, sleep, start it again, and increment the restart count in all three
branches — restart succeeded, restart returned `False`, restart raised. -/
def handleAgentFailure (autoRestart : Bool) (maxRestartAttempts : Nat) (count : Nat)
    (restartOutcome : StartOutcome) : FailureAction :=
  if !autoRestart then
    { restartAttempted := false, publishedSystemError := false, newCount := count }
  else if maxRestartAttempts ≤ count then
    { restartAttempted := false, publishedSystemError := true, newCount := count }
  else
    match restartOutcome with
    | StartOutcome.ok true =>
      { restartAttempted := true, publishedSystemError := false, newCount := count + 1 }
    | StartOutcome.ok false =>
      { restartAttempted := true, publishedSystemError := false, newCount := count + 1 }
    | StartOutcome.exn _ =>
      { restartAttempted := true, publishedSystemError := false, newCount := count + 1 }

/-- Repeated health-check passes over a worker that keeps being observed in `ERROR`
(orchestrator.py lines 306–324 call `_handle_agent_failure` once per pass): given the
restart outcomes of the successive passes and the initial restart count, returns
(final restart count, number of restart attempts performed). -/
def iterateFailures (autoRestart : Bool) (maxRestartAttempts : Nat) :
    List StartOutcome → Nat → Nat × Nat
  | [], count => (count, 0)
  | o :: os, count =>
    let a := handleAgentFailure autoRestart maxRestartAttempts count o
    let rest := iterateFailures autoRestart maxRestartAttempts os a.newCount
    (rest.1, (if a.restartAttempted then 1 else 0) + rest.2)

/-! ## Helper lemmas -/

/-- On a permanently failing unit of work, the retry loop starting at `attempt` with
`remaining + 1` iterations left performs `remaining + 1` attempts, re-raises the
exception of its last attempt, makes its last `_set_state` call with `ERROR`
(exactly one `ERROR` call in total), and leaves `current_retry_count` at the index
of the last attempt plus one. -/
theorem executeWithRetryAux_allFail (cfg : RetryConfig) (outcome : Nat → Except Nat Bool)
    (draw : Nat → ℚ) (msg : Nat → Nat) (hfail : ∀ k, outcome k = Except.error (msg k)) :
    ∀ (remaining attempt : Nat) (delay : ℚ) (rc : Nat),
      (executeWithRetryAux cfg outcome draw attempt (remaining + 1) delay rc).attemptsMade
          = remaining + 1 ∧
      (executeWithRetryAux cfg outcome draw attempt (remaining + 1) delay rc).result
          = Except.error (msg (attempt + remaining)) ∧
      (executeWithRetryAux cfg outcome draw attempt (remaining + 1) delay rc).stateCalls.getLast?
          = some AgentState.error ∧
      (executeWithRetryAux cfg outcome draw attempt (remaining + 1) delay rc).stateCalls.count
          AgentState.error = 1 ∧
      (executeWithRetryAux cfg outcome draw attempt (remaining + 1) delay rc).retryCount
          = attempt + remaining + 1 := by
  intro remaining
  induction remaining with
  | zero =>
    intro attempt delay rc
    rw [executeWithRetryAux, hfail attempt]
    dsimp only
    rw [if_neg (by omega : ¬ (0 : Nat) < 0)]
    dsimp only
    refine ⟨rfl, by rw [Nat.add_zero], ?_, ?_, by omega⟩
    · rw [List.getLast?_append_of_ne_nil _ (by simp)]
      rfl
    · rw [List.count_append]
      rcases Nat.eq_zero_or_pos attempt with h | h
      · simp [h]
      · simp [if_pos h]
  | succ n ih =>
    intro attempt delay rc
    rw [executeWithRetryAux, hfail attempt]
    dsimp only
    rw [if_pos (by omega : (0 : Nat) < n + 1)]
    dsimp only
    obtain ⟨ha, hr, hl, hc, hrc⟩ := ih (attempt + 1)
      ((if cfg.jitter then delay * (1/2 + draw attempt) else delay) * cfg.exponential_base)
      (attempt + 1)
    have hne : (executeWithRetryAux cfg outcome draw (attempt + 1) (n + 1)
        ((if cfg.jitter then delay * (1/2 + draw attempt) else delay) * cfg.exponential_base)
        (attempt + 1)).stateCalls ≠ [] := by
      intro hnil
      rw [hnil] at hl
      simp at hl
    refine ⟨by rw [ha], ?_, ?_, ?_, by rw [hrc]; omega⟩
    · rw [hr, show attempt + 1 + n = attempt + (n + 1) from by omega]
    · rw [List.getLast?_append_of_ne_nil _ hne]
      exact hl
    · rw [List.count_append, hc]
      rcases Nat.eq_zero_or_pos attempt with h | h
      · simp [h]
      · simp [if_pos h]

/-- With jitter disabled, the delays slept by the retry loop starting at local
variable `delay` follow the plain exponential schedule capped at `max_delay`. -/
theorem executeWithRetryAux_delays_noJitter (cfg : RetryConfig)
    (outcome : Nat → Except Nat Bool) (draw : Nat → ℚ) (msg : Nat → Nat)
    (hj : cfg.jitter = false) (hfail : ∀ k, outcome k = Except.error (msg k)) :
    ∀ (remaining attempt : Nat) (delay : ℚ) (rc : Nat),
      (executeWithRetryAux cfg outcome draw attempt (remaining + 1) delay rc).delays
        = (List.range remaining).map
            (fun j => min (delay * cfg.exponential_base ^ j) cfg.max_delay) := by
  intro remaining
  induction remaining with
  | zero =>
    intro attempt delay rc
    simp [executeWithRetryAux, hfail attempt]
  | succ n ih =>
    intro attempt delay rc
    rw [executeWithRetryAux, hfail attempt]
    dsimp only
    rw [if_pos (by omega : (0 : Nat) < n + 1)]
    dsimp only
    rw [hj]
    rw [if_neg (show ¬ (false = true) by simp)]
    rw [ih (attempt + 1) (delay * cfg.exponential_base) (attempt + 1)]
    rw [List.range_succ_eq_map, List.map_cons, List.map_map]
    congr 1
    · simp
    · apply List.map_congr_left
      intro j _
      simp only [Function.comp_apply, Nat.succ_eq_add_one]
      congr 1
      rw [pow_succ]
      ring

/-- With jitter enabled, the delay slept before the `j`-th retry is the exponential
schedule multiplied by the *accumulated* jitter factors `(1/2 + draw i)` of every
failure so far, capped at `max_delay`. -/
theorem executeWithRetryAux_delays_jitter (cfg : RetryConfig)
    (outcome : Nat → Except Nat Bool) (draw : Nat → ℚ) (msg : Nat → Nat)
    (hj : cfg.jitter = true) (hfail : ∀ k, outcome k = Except.error (msg k)) :
    ∀ (remaining attempt : Nat) (delay : ℚ) (rc : Nat),
      (executeWithRetryAux cfg outcome draw attempt (remaining + 1) delay rc).delays
        = (List.range remaining).map
            (fun j => min (delay * (∏ i ∈ Finset.range (j + 1), (1/2 + draw (attempt + i)))
                * cfg.exponential_base ^ j) cfg.max_delay) := by
  intro remaining
  induction remaining with
  | zero =>
    intro attempt delay rc
    simp [executeWithRetryAux, hfail attempt]
  | succ n ih =>
    intro attempt delay rc
    rw [executeWithRetryAux, hfail attempt]
    dsimp only
    rw [if_pos (by omega : (0 : Nat) < n + 1)]
    dsimp only
    rw [hj]
    rw [if_pos (show (true = true) by rfl)]
    rw [ih (attempt + 1) (delay * (1/2 + draw attempt) * cfg.exponential_base) (attempt + 1)]
    rw [List.range_succ_eq_map, List.map_cons, List.map_map]
    congr 1
    · simp
    · apply List.map_congr_left
      intro j _
      simp only [Function.comp_apply, Nat.succ_eq_add_one]
      congr 1
      rw [Finset.prod_range_succ' (fun i => 1/2 + draw (attempt + i)) (j + 1)]
      simp only [Nat.add_zero]
      have hprod : (∏ i ∈ Finset.range (j + 1), (1/2 + draw (attempt + (i + 1))))
          = ∏ i ∈ Finset.range (j + 1), (1/2 + draw (attempt + 1 + i)) :=
        Finset.prod_congr rfl (fun i _ => by
          rw [show i + 1 = 1 + i from Nat.add_comm i 1, ← Nat.add_assoc])
      rw [hprod, pow_succ]
      ring

/-- Every pass of the run-loop body increments `total_runs` by exactly one,
whatever the state and the outcome of the retried execution. -/
theorem runLoopIteration_total_runs (cfg : RetryConfig) (s : AgentState) (m : AgentMetrics)
    (outcome : Nat → Except Nat Bool) (draw : Nat → ℚ) :
    (runLoopIteration cfg s m outcome draw).metrics.total_runs = m.total_runs + 1 := by
  simp only [runLoopIteration]
  split <;> rfl

/-- The state after a run-loop pass is the last `_set_state` call made by
`_execute_with_retry` during it (or the incoming state if none was made). -/
theorem runLoopIteration_state (cfg : RetryConfig) (s : AgentState) (m : AgentMetrics)
    (outcome : Nat → Except Nat Bool) (draw : Nat → ℚ) :
    (runLoopIteration cfg s m outcome draw).state
      = ((executeWithRetry cfg outcome draw m.current_retry_count).stateCalls.getLast?).getD s := by
  simp only [runLoopIteration]
  split <;> rfl

/-- The number of `AgentError` events published during a run-loop pass equals the
number of `_set_state(ERROR)` calls made by `_execute_with_retry` during it. -/
theorem runLoopIteration_agentErrorEvents (cfg : RetryConfig) (s : AgentState)
    (m : AgentMetrics) (outcome : Nat → Except Nat Bool) (draw : Nat → ℚ) :
    (runLoopIteration cfg s m outcome draw).agentErrorEvents
      = (executeWithRetry cfg outcome draw m.current_retry_count).stateCalls.count
          AgentState.error := by
  simp only [runLoopIteration]
  split <;> rfl

/-- When the restart count is still below the bound, `_handle_agent_failure` with
auto-restart enabled performs the restart and increments the count whatever the
restart's outcome. -/
theorem handleAgentFailure_restart (maxA count : Nat) (o : StartOutcome)
    (h : count < maxA) :
    handleAgentFailure true maxA count o
      = { restartAttempted := true, publishedSystemError := false, newCount := count + 1 } := by
  have hn : ¬ maxA ≤ count := by omega
  cases o with
  | ok b => cases b <;> simp [handleAgentFailure, hn]
  | exn e => simp [handleAgentFailure, hn]

/-- Once the restart count has reached the bound, `_handle_agent_failure` performs no
restart and publishes a system `ERROR` event. -/
theorem handleAgentFailure_exhausted (maxA count : Nat) (o : StartOutcome)
    (h : maxA ≤ count) :
    handleAgentFailure true maxA count o
      = { restartAttempted := false, publishedSystemError := true, newCount := count } := by
  simp [handleAgentFailure, h]

/-- With `max_restart_attempts = 1` and the count already at 1, no later health-check
pass ever attempts another restart. -/
theorem iterateFailures_saturated (os : List StartOutcome) :
    ∀ count, 1 ≤ count → (iterateFailures true 1 os count).2 = 0 := by
  induction os with
  | nil => intro count h; rfl
  | cons o os ih =>
    intro count h
    simp only [iterateFailures, handleAgentFailure_exhausted 1 count o h]
    simp [ih count h]

/-- With `max_restart_attempts = 1` and a worker repeatedly observed in `ERROR`,
exactly one restart is attempted over any sequence of health-check passes. -/
theorem iterateFailures_once (outcomes : List StartOutcome) :
    (iterateFailures true 1 outcomes 0).2 = min outcomes.length 1 := by
  cases outcomes with
  | nil => rfl
  | cons o os =>
    simp only [iterateFailures, handleAgentFailure_restart 1 0 o (by omega)]
    simp [iterateFailures_saturated os 1 (by omega)]

/-- A retried execution whose first attempt raises and whose first retry succeeds
makes exactly the `_set_state` calls `RECOVERING` then `RUNNING` (base_agent.py
lines 327–334), whatever state the Worker was in when the pass began. -/
theorem executeWithRetry_fail_then_ok (cfg : RetryConfig)
    (outcome : Nat → Except Nat Bool) (draw : Nat → ℚ) (rc e0 : Nat) (b : Bool)
    (hmr : 1 ≤ cfg.max_retries) (h0 : outcome 0 = Except.error e0)
    (h1 : outcome 1 = Except.ok b) :
    (executeWithRetry cfg outcome draw rc).stateCalls
      = [AgentState.recovering, AgentState.running] := by
  obtain ⟨n, hn⟩ : ∃ n, cfg.max_retries = n + 1 := ⟨cfg.max_retries - 1, by omega⟩
  rw [executeWithRetry, hn]
  rw [executeWithRetryAux, h0]
  dsimp only
  rw [if_pos (by omega : (0 : Nat) < n + 1)]
  dsimp only
  simp only [Nat.zero_add]
  rw [executeWithRetryAux, h1]
  dsimp only
  simp

/-! ## Claims -/

/-- C1: the spec and the claim say `publish` fails with a queue-full error when the
queue is saturated rather than waiting. The code's own `except asyncio.QueueFull`
handler (event_bus.py lines 197–199) shows that intent, but `await queue.put` never
raises `QueueFull` — it suspends until a slot frees — so that handler is dead code and
`publish` blocks instead: with capacity 1 and one queued event, `publish` yields
`blockedOnPut`, while `publish_sync` (whose `put_nowait` does raise) fails as
specified; on a non-saturated queue `publish` returns the constructed event
immediately, without touching any subscription. -/
theorem publish_blocks_when_saturated :
    (publish ⟨1, [⟨EventType.notification, [], "w1", 0, 0, none⟩]⟩ EventType.error []
        "w2" none 1 1
      = PublishOutcome.blockedOnPut ⟨EventType.error, [], "w2", 1, 1, none⟩) ∧
    (publishSync ⟨1, [⟨EventType.notification, [], "w1", 0, 0, none⟩]⟩ EventType.error []
        "w2" none 1 1
      = Except.error (PyError.runtimeError queueFullMsg)) ∧
    (publish ⟨2, [⟨EventType.notification, [], "w1", 0, 0, none⟩]⟩ EventType.error []
        "w2" none 1 1
      = PublishOutcome.returned ⟨EventType.error, [], "w2", 1, 1, none⟩
          ⟨2, [⟨EventType.notification, [], "w1", 0, 0, none⟩,
               ⟨EventType.error, [], "w2", 1, 1, none⟩]⟩) := by
  refine ⟨rfl, rfl, rfl⟩

/-- C2: for every retry configuration with `max_retries = n` and a unit of work that
fails on every attempt, `_execute_with_retry` awaits the work exactly `n + 1` times,
its last `_set_state` call is `ERROR`, and it re-raises the exception of the last
attempt. -/
theorem retry_exhausts_then_error (cfg : RetryConfig) (outcome : Nat → Except Nat Bool)
    (draw : Nat → ℚ) (rc : Nat) (msg : Nat → Nat)
    (hfail : ∀ k, outcome k = Except.error (msg k)) :
    (executeWithRetry cfg outcome draw rc).attemptsMade = cfg.max_retries + 1 ∧
    (executeWithRetry cfg outcome draw rc).stateCalls.getLast? = some AgentState.error ∧
    (executeWithRetry cfg outcome draw rc).result = Except.error (msg cfg.max_retries) := by
  obtain ⟨ha, hr, hl, -, -⟩ := executeWithRetryAux_allFail cfg outcome draw msg hfail
    cfg.max_retries 0 cfg.initial_delay rc
  rw [executeWithRetry]
  exact ⟨ha, hl, by simpa using hr⟩

/-- Witness for C2 at the default configuration (`max_retries = 3`) and a unit of
work that always raises exception 7: four attempts, final `ERROR`, exception 7
re-raised. -/
theorem retry_exhausts_then_error_witness :
    (executeWithRetry {} (fun _ => Except.error 7) (fun _ => 0) 0).attemptsMade = 4 ∧
    (executeWithRetry {} (fun _ => Except.error 7) (fun _ => 0) 0).stateCalls.getLast?
        = some AgentState.error ∧
    (executeWithRetry {} (fun _ => Except.error 7) (fun _ => 0) 0).result
        = Except.error 7 := by
  exact retry_exhausts_then_error {} (fun _ => Except.error 7) (fun _ => 0) 0
    (fun _ => 7) (fun _ => rfl)

/-- C3: with jitter disabled and a permanently failing unit of work, the delay slept
after the k-th failed attempt is exactly `min (initial_delay · exponential_base^k)
max_delay`, deterministically, and `max_retries + 1` attempts are made. -/
theorem retry_delays_no_jitter (cfg : RetryConfig) (outcome : Nat → Except Nat Bool)
    (draw : Nat → ℚ) (rc : Nat) (msg : Nat → Nat) (hj : cfg.jitter = false)
    (hfail : ∀ k, outcome k = Except.error (msg k)) :
    (executeWithRetry cfg outcome draw rc).delays
      = (List.range cfg.max_retries).map
          (fun k => min (cfg.initial_delay * cfg.exponential_base ^ k) cfg.max_delay) ∧
    (executeWithRetry cfg outcome draw rc).attemptsMade = cfg.max_retries + 1 := by
  constructor
  · rw [executeWithRetry]
    exact executeWithRetryAux_delays_noJitter cfg outcome draw msg hj hfail
      cfg.max_retries 0 cfg.initial_delay rc
  · rw [executeWithRetry]
    exact (executeWithRetryAux_allFail cfg outcome draw msg hfail
      cfg.max_retries 0 cfg.initial_delay rc).1

/-- Witness for C3, the spec's scenario: `max_retries = 2`, `initial_delay = 1`,
`exponential_base = 2`, jitter disabled, always-failing work — delays 1 and 2,
exactly 3 attempts. -/
theorem retry_delays_no_jitter_witness :
    (executeWithRetry { max_retries := 2, initial_delay := 1, max_delay := 300, exponential_base := 2, jitter := false }
      (fun _ => Except.error 3) (fun _ => 0) 0).delays = [1, 2] ∧
    (executeWithRetry { max_retries := 2, initial_delay := 1, max_delay := 300, exponential_base := 2, jitter := false }
      (fun _ => Except.error 3) (fun _ => 0) 0).attemptsMade = 3 := by
  obtain ⟨hd, ha⟩ := retry_delays_no_jitter
    { max_retries := 2, initial_delay := 1, max_delay := 300,
      exponential_base := 2, jitter := false }
    (fun _ => Except.error 3) (fun _ => 0) 0 (fun _ => 3) rfl (fun _ => rfl)
  refine ⟨?_, ha⟩
  rw [hd]
  norm_num [List.range_succ, min_def]

/-- C4 is false on the code: the jitter factor is `0.5 + random.random()`, which
ranges over [0.5, 1.5), not [0.5, 1.0]. With `initial_delay = 1`, `max_delay = 300`,
`exponential_base = 2` and the legitimate draw `random.random() = 0.9`, the slept
delay is 1.4 — strictly greater than the deterministic delay
`min(initial_delay · base^0, max_delay) = 1`, so no multiplier in [0.5, 1.0] can
explain it. -/
theorem retry_jitter_exceeds_deterministic :
    (executeWithRetry { max_retries := 1, initial_delay := 1, max_delay := 300, exponential_base := 2, jitter := true }
      (fun _ => Except.error 0) (fun _ => (9 : ℚ)/10) 0).delays = [7/5] ∧
    min ((1 : ℚ) * 2 ^ (0 : Nat)) 300 = 1 ∧
    ¬ ((7 : ℚ)/5 ≤ 1) := by
  refine ⟨by norm_num [executeWithRetry, executeWithRetryAux, min_def], by norm_num, by norm_num⟩

/-- C4 amended: with jitter enabled and a permanently failing unit of work, the delay
slept after the k-th failed attempt equals
`min (initial_delay · (∏ i ≤ k, (0.5 + rᵢ)) · exponential_base^k) max_delay`, where
`rᵢ ∈ [0, 1)` is the i-th `random.random()` draw — each factor `0.5 + rᵢ` lies in
[0.5, 1.5) and the factors compound across attempts, so the slept delay can exceed
the deterministic schedule. -/
theorem retry_delays_jitter (cfg : RetryConfig) (outcome : Nat → Except Nat Bool)
    (draw : Nat → ℚ) (rc : Nat) (msg : Nat → Nat) (hj : cfg.jitter = true)
    (hfail : ∀ k, outcome k = Except.error (msg k)) :
    (executeWithRetry cfg outcome draw rc).delays
      = (List.range cfg.max_retries).map
          (fun k => min (cfg.initial_delay * (∏ i ∈ Finset.range (k + 1), (1/2 + draw i))
              * cfg.exponential_base ^ k) cfg.max_delay) := by
  rw [executeWithRetry, executeWithRetryAux_delays_jitter cfg outcome draw msg hj hfail
    cfg.max_retries 0 cfg.initial_delay rc]
  simp only [Nat.zero_add]

/-- Witness for the amended C4: draws 0.9 then 0, `max_retries = 2` — the second
slept delay still carries the first jitter factor (1.4 · 2 · 0.5 = 1.4). -/
theorem retry_delays_jitter_witness :
    (executeWithRetry { max_retries := 2, initial_delay := 1, max_delay := 300, exponential_base := 2, jitter := true }
      (fun _ => Except.error 0) (fun k => if k = 0 then (9 : ℚ)/10 else 0) 0).delays
      = [7/5, 7/5] := by
  rw [retry_delays_jitter _ _ _ 0 (fun _ => 0) rfl (fun _ => rfl)]
  norm_num [List.range_succ, Finset.prod_range_succ, Finset.prod_range_zero, min_def]

/-- C5 is false on the code: with `max_retries = 0` and always-failing work, one pass
of the run loop leaves the Worker in `ERROR` (one `AgentError` published), yet the
loop does not stop — the next pass executes the unit of work again with no
intervening `start()`, raising `total_runs` from 1 to 2. -/
theorem run_loop_runs_again_from_error :
    (runLoopIteration { max_retries := 0, initial_delay := 1, max_delay := 300, exponential_base := 2, jitter := false }
        AgentState.running {} (fun _ => Except.error 1) (fun _ => 0)).state
      = AgentState.error ∧
    (runLoopIteration { max_retries := 0, initial_delay := 1, max_delay := 300, exponential_base := 2, jitter := false }
        AgentState.running {} (fun _ => Except.error 1) (fun _ => 0)).agentErrorEvents = 1 ∧
    (runLoopIteration { max_retries := 0, initial_delay := 1, max_delay := 300, exponential_base := 2, jitter := false }
        AgentState.error
        ((runLoopIteration { max_retries := 0, initial_delay := 1, max_delay := 300, exponential_base := 2, jitter := false }
            AgentState.running {} (fun _ => Except.error 1) (fun _ => 0)).metrics)
        (fun _ => Except.error 1) (fun _ => 0)).metrics.total_runs = 2 := by
  refine ⟨rfl, rfl, rfl⟩

/-- C5 amended: once retries are exhausted the Worker is in `ERROR` and one
`AgentError` event was published, but the `ERROR` state is not terminal for the run
loop: while no shutdown or pause intervenes, the next pass executes another unit of
work (incrementing `total_runs`) with no external `start()` call; and on a later pass
from `ERROR` whose first attempt fails and whose retry succeeds, the `_set_state`
calls are exactly `RECOVERING` then `RUNNING` — the Worker moves
`ERROR → RECOVERING → RUNNING` and ends the pass `RUNNING`, with no `start()`
involved. -/
theorem run_loop_continues_after_error (cfg : RetryConfig) (m m2 : AgentMetrics)
    (outcome outcomeR : Nat → Except Nat Bool) (draw : Nat → ℚ) (msg : Nat → Nat)
    (e0 : Nat) (b : Bool)
    (hfail : ∀ k, outcome k = Except.error (msg k))
    (hmr : 1 ≤ cfg.max_retries)
    (hr0 : outcomeR 0 = Except.error e0) (hr1 : outcomeR 1 = Except.ok b) :
    (runLoopIteration cfg AgentState.running m outcome draw).state = AgentState.error ∧
    (runLoopIteration cfg AgentState.running m outcome draw).agentErrorEvents = 1 ∧
    (runLoopIteration cfg AgentState.error
        ((runLoopIteration cfg AgentState.running m outcome draw).metrics)
        outcome draw).metrics.total_runs = m.total_runs + 2 ∧
    (executeWithRetry cfg outcomeR draw m2.current_retry_count).stateCalls
      = [AgentState.recovering, AgentState.running] ∧
    (runLoopIteration cfg AgentState.error m2 outcomeR draw).state
      = AgentState.running := by
  obtain ⟨-, -, hl, hc, -⟩ := executeWithRetryAux_allFail cfg outcome draw msg hfail
    cfg.max_retries 0 cfg.initial_delay m.current_retry_count
  have hseq := executeWithRetry_fail_then_ok cfg outcomeR draw m2.current_retry_count
    e0 b hmr hr0 hr1
  refine ⟨?_, ?_, ?_, hseq, ?_⟩
  · rw [runLoopIteration_state, executeWithRetry, hl]
    rfl
  · rw [runLoopIteration_agentErrorEvents, executeWithRetry, hc]
  · rw [runLoopIteration_total_runs, runLoopIteration_total_runs]
  · rw [runLoopIteration_state, hseq]
    rfl

/-- Witness for the amended C5: exhaustion under exception 5, then a pass from
`ERROR` failing once with exception 9 and recovering — `RECOVERING`, `RUNNING`. -/
theorem run_loop_continues_after_error_witness :
    (runLoopIteration {} AgentState.running {} (fun _ => Except.error 5)
        (fun _ => 0)).state = AgentState.error ∧
    (runLoopIteration {} AgentState.running {} (fun _ => Except.error 5)
        (fun _ => 0)).agentErrorEvents = 1 ∧
    (runLoopIteration {} AgentState.error
        ((runLoopIteration {} AgentState.running {} (fun _ => Except.error 5)
            (fun _ => 0)).metrics)
        (fun _ => Except.error 5) (fun _ => 0)).metrics.total_runs = 2 ∧
    (executeWithRetry {} (fun k => if k = 0 then Except.error 9 else Except.ok true)
        (fun _ => 0) 0).stateCalls = [AgentState.recovering, AgentState.running] ∧
    (runLoopIteration {} AgentState.error {}
        (fun k => if k = 0 then Except.error 9 else Except.ok true)
        (fun _ => 0)).state = AgentState.running := by
  exact run_loop_continues_after_error {} {} {} (fun _ => Except.error 5)
    (fun k => if k = 0 then Except.error 9 else Except.ok true) (fun _ => 0)
    (fun _ => 5) 9 true (fun _ => rfl) (by decide) rfl rfl

/-- C6: if any Worker fails to start (returns `False` or raises), the Supervisor's
`start` stops every Worker — those that started and those that did not — and returns
failure, so no proper non-empty subset of Workers is left running; the per-Worker
stop sequences are assumed not to raise in their shutdown hooks. -/
theorem orchestrator_start_rolls_back (startResults : List StartOutcome)
    (stopHookFails : List Bool)
    (hfail : ∃ r ∈ startResults, r ≠ StartOutcome.ok true)
    (hstop : ∀ b ∈ stopHookFails, b = false) :
    (orchestratorStart startResults stopHookFails).1 = false ∧
    (orchestratorStart startResults stopHookFails).2.all
      (fun s => s == AgentState.stopped) = true := by
  have hall : startResults.all (fun r => r == StartOutcome.ok true) = false := by
    rcases hfail with ⟨r, hr, hne⟩
    rw [List.all_eq_false]
    exact ⟨r, hr, by simpa using hne⟩
  constructor
  · simp [orchestratorStart, hall]
  · rw [List.all_eq_true]
    intro s hs
    simp only [orchestratorStart, hall, Bool.false_eq_true, if_false, List.mem_map] at hs
    obtain ⟨p, hp, hps⟩ := hs
    have hb : p.2 = false := hstop p.2 (List.of_mem_zip hp).2
    rw [← hps]
    rcases p with ⟨st, b⟩
    simp only at hb
    subst hb
    by_cases hst : st = AgentState.stopped
    · simp [agentStopModel, hst]
    · simp [agentStopModel, hst]

/-- Witness for C6: three Workers of which the second fails to start — `start`
returns failure and all three end `STOPPED`. -/
theorem orchestrator_start_rolls_back_witness :
    (orchestratorStart [StartOutcome.ok true, StartOutcome.ok false, StartOutcome.ok true]
        [false, false, false]).1 = false ∧
    (orchestratorStart [StartOutcome.ok true, StartOutcome.ok false, StartOutcome.ok true]
        [false, false, false]).2.all (fun s => s == AgentState.stopped) = true := by
  exact orchestrator_start_rolls_back _ _
    ⟨StartOutcome.ok false, by decide, by decide⟩ (by decide)

/-- C7: with auto-restart enabled, a pass of `_handle_agent_failure` below the bound
increments the restart count by one whatever the restart outcome; a pass at or above
the bound attempts no restart and publishes a system `ERROR` event; and with
`max_restart_attempts = 1` and a Worker repeatedly in `ERROR`, exactly one restart is
attempted over any sequence of health-check passes (`min (length) 1`). -/
theorem restart_counted_and_bounded (maxA count c : Nat) (o oc : StartOutcome)
    (outcomes : List StartOutcome) (hlt : count < maxA) (hge : maxA ≤ c) :
    (handleAgentFailure true maxA count o).newCount = count + 1 ∧
    (handleAgentFailure true maxA count o).restartAttempted = true ∧
    (handleAgentFailure true maxA c oc).restartAttempted = false ∧
    (handleAgentFailure true maxA c oc).publishedSystemError = true ∧
    (iterateFailures true 1 outcomes 0).2 = min outcomes.length 1 := by
  refine ⟨?_, ?_, ?_, ?_, iterateFailures_once outcomes⟩
  · rw [handleAgentFailure_restart maxA count o hlt]
  · rw [handleAgentFailure_restart maxA count o hlt]
  · rw [handleAgentFailure_exhausted maxA c oc hge]
  · rw [handleAgentFailure_exhausted maxA c oc hge]

/-- Witness for C7 with `max_restart_attempts = 1`: a failing restart still counts,
the saturated pass only publishes `ERROR`, and two observed failures yield exactly
one restart attempt. -/
theorem restart_counted_and_bounded_witness :
    (handleAgentFailure true 1 0 (StartOutcome.ok false)).newCount = 1 ∧
    (handleAgentFailure true 1 0 (StartOutcome.ok false)).restartAttempted = true ∧
    (handleAgentFailure true 1 1 (StartOutcome.ok true)).restartAttempted = false ∧
    (handleAgentFailure true 1 1 (StartOutcome.ok true)).publishedSystemError = true ∧
    (iterateFailures true 1 [StartOutcome.ok false, StartOutcome.exn 0] 0).2
      = min [StartOutcome.ok false, StartOutcome.exn 0].length 1 := by
  exact restart_counted_and_bounded 1 0 1 (StartOutcome.ok false) (StartOutcome.ok true)
    [StartOutcome.ok false, StartOutcome.exn 0] (by omega) (by omega)

/-- C8 is false on the code: with auto-restart disabled, `_handle_agent_failure` only
logs and returns (orchestrator.py lines 336–338) — it does not publish the system
`Error` event the claim (and spec) require. -/
theorem disabled_auto_restart_publishes_nothing :
    (handleAgentFailure false 3 0 (StartOutcome.ok true)).publishedSystemError = false ∧
    (handleAgentFailure false 3 0 (StartOutcome.ok true)).restartAttempted = false := by
  refine ⟨rfl, rfl⟩

/-- C8 amended: with auto-restart disabled, `_handle_agent_failure` performs no
stop/start of the Worker, leaves the restart count unchanged, and only logs — it
publishes no event at all. -/
theorem disabled_auto_restart_only_logs (maxA count : Nat) (o : StartOutcome) :
    handleAgentFailure false maxA count o
      = { restartAttempted := false, publishedSystemError := false, newCount := count } := rfl

/-- C9 is false on the code as quantified: for `limit = 0` the Python slice
`events[-0:]` is `events[0:]`, the whole filtered history — here 2 events, more than
the promised "at most 0". -/
theorem get_event_history_limit_zero_unbounded :
    ¬ ((getEventHistory
        [⟨EventType.notification, [], "a", 0, 0, none⟩,
         ⟨EventType.warning, [], "b", 1, 1, none⟩] none none none 0).length ≤ 0) := by
  decide

/-- C9 amended: for every limit `L ≥ 1` and every filter combination,
`get_event_history` returns exactly the last `min(L, n)` events of the filtered
history (`n` = number of matching events): a suffix of the filtered history of
exactly that length, which is the unique list of the most recently published
matching events, and in particular at most `L` events. `_process_event` keeps the
history at no more than 1,000 entries, evicting oldest first (the retained history
is a suffix of the appended one). For `L = 0` the whole filtered history is
returned instead. -/
theorem get_event_history_bounded (hist : List Event) (et : Option EventType)
    (src cid : Option String) (limit : Int) (e : Event) (hlim : 1 ≤ limit) :
    (getEventHistory hist et src cid limit).length
        = min limit.toNat (filterEvents hist et src cid).length ∧
    (getEventHistory hist et src cid limit).length ≤ limit.toNat ∧
    getEventHistory hist et src cid limit <:+ filterEvents hist et src cid ∧
    (processEventHistory hist e).length ≤ maxHistorySize ∧
    processEventHistory hist e <:+ hist ++ [e] := by
  refine ⟨?_, ?_, ?_, ?_, ?_⟩
  · unfold getEventHistory pyTakeLast
    rw [if_pos (by omega : (0 : Int) < limit)]
    rw [List.length_drop]
    omega
  · unfold getEventHistory pyTakeLast
    rw [if_pos (by omega : (0 : Int) < limit)]
    rw [List.length_drop]
    omega
  · unfold getEventHistory pyTakeLast
    rw [if_pos (by omega : (0 : Int) < limit)]
    exact List.drop_suffix _ _
  · simp only [processEventHistory]
    split
    · rw [List.length_drop]
      omega
    · omega
  · simp only [processEventHistory]
    split
    · exact List.drop_suffix _ _
    · exact List.suffix_refl _

/-- Witness for the amended C9 at a one-event history, `limit = 1` and a fresh
event. -/
theorem get_event_history_bounded_witness :
    (getEventHistory [⟨EventType.notification, [], "a", 0, 0, none⟩] none none none 1).length
      = min (1 : Int).toNat
          (filterEvents [⟨EventType.notification, [], "a", 0, 0, none⟩] none none none).length ∧
    (getEventHistory [⟨EventType.notification, [], "a", 0, 0, none⟩] none none none 1).length
      ≤ (1 : Int).toNat ∧
    getEventHistory [⟨EventType.notification, [], "a", 0, 0, none⟩] none none none 1
      <:+ filterEvents [⟨EventType.notification, [], "a", 0, 0, none⟩] none none none ∧
    (processEventHistory [⟨EventType.notification, [], "a", 0, 0, none⟩]
        ⟨EventType.warning, [], "b", 1, 1, none⟩).length ≤ maxHistorySize ∧
    processEventHistory [⟨EventType.notification, [], "a", 0, 0, none⟩]
        ⟨EventType.warning, [], "b", 1, 1, none⟩
      <:+ [⟨EventType.notification, [], "a", 0, 0, none⟩]
            ++ [⟨EventType.warning, [], "b", 1, 1, none⟩] := by
  exact get_event_history_bounded [⟨EventType.notification, [], "a", 0, 0, none⟩]
    none none none 1 ⟨EventType.warning, [], "b", 1, 1, none⟩ (by omega)

/-- C10: every completed pass of the run-loop body increments `total_runs` by exactly
one and exactly one of `successful_runs` (when the retried execution returns `True`)
or `failed_runs` (when it returns `False` or raises) by exactly one, so
`successful_runs + failed_runs = total_runs` is preserved. -/
theorem run_loop_counts (cfg : RetryConfig) (s : AgentState) (m : AgentMetrics)
    (outcome : Nat → Except Nat Bool) (draw : Nat → ℚ) :
    (runLoopIteration cfg s m outcome draw).metrics.total_runs = m.total_runs + 1 ∧
    ((executeWithRetry cfg outcome draw m.current_retry_count).result = Except.ok true →
      (runLoopIteration cfg s m outcome draw).metrics.successful_runs
          = m.successful_runs + 1 ∧
      (runLoopIteration cfg s m outcome draw).metrics.failed_runs = m.failed_runs) ∧
    ((executeWithRetry cfg outcome draw m.current_retry_count).result ≠ Except.ok true →
      (runLoopIteration cfg s m outcome draw).metrics.successful_runs = m.successful_runs ∧
      (runLoopIteration cfg s m outcome draw).metrics.failed_runs = m.failed_runs + 1) ∧
    (m.successful_runs + m.failed_runs = m.total_runs →
      (runLoopIteration cfg s m outcome draw).metrics.successful_runs
          + (runLoopIteration cfg s m outcome draw).metrics.failed_runs
        = (runLoopIteration cfg s m outcome draw).metrics.total_runs) := by
  refine ⟨runLoopIteration_total_runs cfg s m outcome draw, ?_, ?_, ?_⟩
  · intro hres
    constructor <;> simp [runLoopIteration, hres]
  · intro hres
    rcases hres2 : (executeWithRetry cfg outcome draw m.current_retry_count).result with e | b
    · constructor <;> simp [runLoopIteration, hres2]
    · cases b
      · constructor <;> simp [runLoopIteration, hres2]
      · exact absurd hres2 hres
  · intro hinv
    rcases hres2 : (executeWithRetry cfg outcome draw m.current_retry_count).result with e | b
    · simp [runLoopIteration, hres2]
      omega
    · cases b <;> simp [runLoopIteration, hres2] <;> omega

/-- Witness for C10 at the default configuration and a unit of work that succeeds
immediately. -/
theorem run_loop_counts_witness :
    (runLoopIteration {} AgentState.running {} (fun _ => Except.ok true)
        (fun _ => 0)).metrics.total_runs = 1 ∧
    ((executeWithRetry {} (fun _ => Except.ok true) (fun _ => 0) 0).result = Except.ok true →
      (runLoopIteration {} AgentState.running {} (fun _ => Except.ok true)
          (fun _ => 0)).metrics.successful_runs = 1 ∧
      (runLoopIteration {} AgentState.running {} (fun _ => Except.ok true)
          (fun _ => 0)).metrics.failed_runs = 0) ∧
    ((executeWithRetry {} (fun _ => Except.ok true) (fun _ => 0) 0).result ≠ Except.ok true →
      (runLoopIteration {} AgentState.running {} (fun _ => Except.ok true)
          (fun _ => 0)).metrics.successful_runs = 0 ∧
      (runLoopIteration {} AgentState.running {} (fun _ => Except.ok true)
          (fun _ => 0)).metrics.failed_runs = 1) ∧
    ((0 : Nat) + 0 = 0 →
      (runLoopIteration {} AgentState.running {} (fun _ => Except.ok true)
            (fun _ => 0)).metrics.successful_runs
          + (runLoopIteration {} AgentState.running {} (fun _ => Except.ok true)
            (fun _ => 0)).metrics.failed_runs
        = (runLoopIteration {} AgentState.running {} (fun _ => Except.ok true)
            (fun _ => 0)).metrics.total_runs) := by
  exact run_loop_counts {} AgentState.running {} (fun _ => Except.ok true) (fun _ => 0)

end Tronas
